import Mathlib

/-!
Shallow embedding of the DoMedia client-side interactivity layer
(Helpers, ViewportUtils, Navigation, Animations, ButtonEnhancer,
LaptopEnhancer) and verification of its behavioural claims.

Viewport widths, scroll positions and document dimensions are JavaScript
numbers; they are modelled as rationals (`ℚ`), with a dedicated `JSNum`
type where the non-finite values NaN / Infinity produced by division by
zero are observable.  DOM class lists are modelled as lists of strings
(`classList.add` never introduces duplicates, which the embedded
`addClass` preserves), and DOM side effects performed by a handler are
returned as explicit action lists.
-/

/-- Breakpoint classification of `ViewportUtils.getCurrentBreakpoint`
(src/unnamed/part_002, lines 22-30): a cascade of `width >= 1400 → xl`,
`>= 1024 → lg`, `>= 768 → md`, `>= 480 → sm`, otherwise `xs`. -/
def getCurrentBreakpoint (width : ℚ) : String :=
  if width ≥ 1400 then "xl"
  else if width ≥ 1024 then "lg"
  else if width ≥ 768 then "md"
  else if width ≥ 480 then "sm"
  else "xs"

/-- The predicate `ViewportUtils.isMobile` (line 45-47): `width <= 768`. -/
def isMobile (width : ℚ) : Bool :=
  decide (width ≤ 768)

/-- The predicate `ViewportUtils.isTablet` (lines 53-56):
`width > 768 && width <= 1024`. -/
def isTablet (width : ℚ) : Bool :=
  decide (768 < width) && decide (width ≤ 1024)

/-- The predicate `ViewportUtils.isDesktop` (lines 62-64): `width > 1024`. -/
def isDesktop (width : ℚ) : Bool :=
  decide (1024 < width)

/-- C1: `getCurrentBreakpoint` maps every width to exactly one of the five
labels according to the half-open intervals `[1400,∞)→xl`, `[1024,1400)→lg`,
`[768,1024)→md`, `[480,768)→sm`, below 480 → `xs` (so `[0,480)→xs` for real
viewport widths); `isMobile`/`isTablet`/`isDesktop` hold iff `w ≤ 768`,
`768 < w ≤ 1024`, `w > 1024`; at `w = 800` the page is not mobile, is
tablet, and the breakpoint is `md`; at `w = 768` the page is simultaneously
mobile and at breakpoint `md` (overlapping boundary preserved). -/
theorem getCurrentBreakpoint_spec (w : ℚ) :
    (getCurrentBreakpoint w = "xl" ∨ getCurrentBreakpoint w = "lg" ∨
      getCurrentBreakpoint w = "md" ∨ getCurrentBreakpoint w = "sm" ∨
      getCurrentBreakpoint w = "xs") ∧
    (getCurrentBreakpoint w = "xl" ↔ 1400 ≤ w) ∧
    (getCurrentBreakpoint w = "lg" ↔ 1024 ≤ w ∧ w < 1400) ∧
    (getCurrentBreakpoint w = "md" ↔ 768 ≤ w ∧ w < 1024) ∧
    (getCurrentBreakpoint w = "sm" ↔ 480 ≤ w ∧ w < 768) ∧
    (getCurrentBreakpoint w = "xs" ↔ w < 480) ∧
    (isMobile w = true ↔ w ≤ 768) ∧
    (isTablet w = true ↔ 768 < w ∧ w ≤ 1024) ∧
    (isDesktop w = true ↔ 1024 < w) ∧
    (isMobile 800 = false ∧ isTablet 800 = true ∧
      getCurrentBreakpoint 800 = "md") ∧
    (isMobile 768 = true ∧ getCurrentBreakpoint 768 = "md") := by
  unfold getCurrentBreakpoint isMobile isTablet isDesktop
  refine ⟨?_, ?_, ?_, ?_, ?_, ?_, ?_, ?_, ?_, ?_, ?_⟩ <;>
      (try split_ifs) <;> simp_all <;>
    first
      | linarith
      | (intro h; linarith)
      | norm_num at *

/-- The class-adding helper `Helpers.addClass` (src/unnamed/part_003,
lines 50-54): the class is appended only when the class list does not
already contain it, so class lists never hold duplicates. -/
def addClass (classes : List String) (c : String) : List String :=
  if classes.contains c then classes else classes ++ [c]

/-- The class-removing helper `Helpers.removeClass` (lines 61-65): the
class is removed only when the class list contains it. -/
def removeClass (classes : List String) (c : String) : List String :=
  if classes.contains c then classes.erase c else classes

/-- The DOM attribute state touched by `Navigation.openMobileMenu` and
`Navigation.closeMobileMenu` (src/unnamed/part_000, lines 393-432):
the `isMobileMenuOpen` flag, the class lists of `#mainNav` and
`#mobileMenuBtn`, and the button's text content and `aria-expanded`
attribute. -/
structure NavState where
  isMobileMenuOpen : Bool
  navClasses : List String
  btnClasses : List String
  btnText : String
  btnAriaExpanded : String
deriving DecidableEq

/-- The function `Navigation.openMobileMenu` (lines 393-413): sets the open
flag, adds `active` to nav and button, swaps the glyph to `✕`, sets
`aria-expanded` to `true`, and dispatches `mobileMenuOpened` (the dispatched
events are returned as the second component; the deferred focus call does
not change attribute state). -/
def openMobileMenu (s : NavState) : NavState × List String :=
  ({ isMobileMenuOpen := true
     navClasses := addClass s.navClasses "active"
     btnClasses := addClass s.btnClasses "active"
     btnText := "✕"
     btnAriaExpanded := "true" }, ["mobileMenuOpened"])

/-- The function `Navigation.closeMobileMenu` (lines 418-432): clears the
open flag, removes `active` from nav and button, restores the glyph `☰`,
sets `aria-expanded` to `false`, and dispatches `mobileMenuClosed`. -/
def closeMobileMenu (s : NavState) : NavState × List String :=
  ({ isMobileMenuOpen := false
     navClasses := removeClass s.navClasses "active"
     btnClasses := removeClass s.btnClasses "active"
     btnText := "☰"
     btnAriaExpanded := "false" }, ["mobileMenuClosed"])

theorem contains_false_of_not_mem {l : List String} {c : String}
    (h : c ∉ l) : l.contains c = false := by
  simpa using h

theorem removeClass_addClass {l : List String} {c : String} (h : c ∉ l) :
    removeClass (addClass l c) c = l := by
  unfold addClass removeClass
  rw [contains_false_of_not_mem h]
  simp [List.erase_append_right _ h]

theorem removeClass_of_not_mem {l : List String} {c : String} (h : c ∉ l) :
    removeClass l c = l := by
  unfold removeClass
  rw [contains_false_of_not_mem h]
  simp

/-- C2: from the closed menu state (flag down, no `active` class on nav or
button, glyph `☰`, `aria-expanded="false"`), `openMobileMenu` followed by
`closeMobileMenu` restores exactly the pre-open DOM attribute state, and
`closeMobileMenu` on an already-closed menu leaves the DOM attribute state
unchanged. -/
theorem menu_toggle_law (s : NavState)
    (h1 : s.isMobileMenuOpen = false)
    (h2 : "active" ∉ s.navClasses) (h3 : "active" ∉ s.btnClasses)
    (h4 : s.btnText = "☰") (h5 : s.btnAriaExpanded = "false") :
    (closeMobileMenu (openMobileMenu s).1).1 = s ∧
    (closeMobileMenu s).1 = s := by
  constructor
  · simp only [openMobileMenu, closeMobileMenu]
    cases s
    simp_all [removeClass_addClass h2, removeClass_addClass h3]
  · simp only [closeMobileMenu]
    cases s
    simp_all [removeClass_of_not_mem h2, removeClass_of_not_mem h3]

/-- Witness for C2 at a concrete closed state. -/
theorem menu_toggle_law_witness :
    (closeMobileMenu (openMobileMenu
      ⟨false, ["main-nav"], ["menu-btn"], "☰", "false"⟩).1).1 =
      ⟨false, ["main-nav"], ["menu-btn"], "☰", "false"⟩ ∧
    (closeMobileMenu ⟨false, ["main-nav"], ["menu-btn"], "☰", "false"⟩).1 =
      ⟨false, ["main-nav"], ["menu-btn"], "☰", "false"⟩ :=
  menu_toggle_law ⟨false, ["main-nav"], ["menu-btn"], "☰", "false"⟩
    rfl (by decide) (by decide) rfl rfl

/-- Configuration of the Animations module (src/js/modules/animations.js,
lines 8-14).  The duration is a JavaScript number (the code multiplies it by
1.2, 0.8 and 0.6), so it is modelled as a rational. -/
structure AnimConfig where
  animationDuration : ℚ
  animationEasing : String
  staggerDelay : ℕ
deriving DecidableEq

/-- The concrete `Animations.config` object. -/
def animationsConfig : AnimConfig :=
  { animationDuration := 600
    animationEasing := "cubic-bezier(0.4, 0, 0.2, 1)"
    staggerDelay := 100 }

/-- An inline-style or observer side effect performed by the Animations
module on a DOM element (elements are identified by numeric ids). -/
inductive StyleAction where
  | addCls (el : ℕ) (c : String)
  | setOpacity (el : ℕ) (v : String)
  | setTransform (el : ℕ) (v : String)
  | setTransition (el : ℕ) (v : String)
  | observe (el : ℕ)
deriving DecidableEq

/-- The transition string `all <ms>ms <easing>` assigned by the animate
functions. -/
def transitionString (ms : ℚ) : String :=
  "all " ++ toString ms ++ "ms " ++ animationsConfig.animationEasing

/-- The function `Animations.animateHeroHeading` (lines 120-129): hide,
then (after a 50ms timeout, elided here — actions are listed in the order
they are applied) transition to full opacity.  -/
def animateHeroHeading (el : ℕ) : List StyleAction :=
  [StyleAction.setOpacity el "0",
   StyleAction.setTransform el "translateY(30px)",
   StyleAction.setTransition el (transitionString animationsConfig.animationDuration),
   StyleAction.setOpacity el "1",
   StyleAction.setTransform el "translateY(0)"]

/-- The function `Animations.animateScreenContent` (lines 155-168): each
child of `.screen-content` is hidden and then transitioned in, staggered by
`index * staggerDelay` (the delays are elided; actions are in program
order). -/
def animateScreenContent (screenChildren : List ℕ) : List StyleAction :=
  screenChildren.flatMap fun el =>
    [StyleAction.setOpacity el "0",
     StyleAction.setTransform el "translateY(20px)",
     StyleAction.setTransition el (transitionString (animationsConfig.animationDuration * 0.8)),
     StyleAction.setOpacity el "1",
     StyleAction.setTransform el "translateY(0)"]

/-- The function `Animations.animateLaptopFrame` (lines 135-149): hide,
transition in over duration*1.2, then animate the screen content children
(which starts duration*0.6 later, delay elided). -/
def animateLaptopFrame (el : ℕ) (screenChildren : List ℕ) : List StyleAction :=
  [StyleAction.setOpacity el "0",
   StyleAction.setTransform el "translateX(50px) scale(0.9)",
   StyleAction.setTransition el (transitionString (animationsConfig.animationDuration * 1.2)),
   StyleAction.setOpacity el "1",
   StyleAction.setTransform el "translateX(0) scale(1)"] ++
  animateScreenContent screenChildren

/-- The function `Animations.animateCTAButton` (lines 174-183). -/
def animateCTAButton (el : ℕ) : List StyleAction :=
  [StyleAction.setOpacity el "0",
   StyleAction.setTransform el "translateY(20px)",
   StyleAction.setTransition el (transitionString animationsConfig.animationDuration),
   StyleAction.setOpacity el "1",
   StyleAction.setTransform el "translateY(0)"]

/-- The function `Animations.animateGeneric` (lines 189-198). -/
def animateGeneric (el : ℕ) : List StyleAction :=
  [StyleAction.setOpacity el "0",
   StyleAction.setTransform el "translateY(30px)",
   StyleAction.setTransition el (transitionString animationsConfig.animationDuration),
   StyleAction.setOpacity el "1",
   StyleAction.setTransform el "translateY(0)"]

/-- A DOM element as seen by `Animations.animateElement`: its identity, the
selector matches used for role dispatch, and its `.screen-content > *`
children. -/
structure AnimElem where
  id : ℕ
  matchesHeroHeading : Bool
  matchesLaptopFrame : Bool
  matchesCtaButton : Bool
  screenChildren : List ℕ
deriving DecidableEq

/-- Role dispatch of `Animations.animateElement` (lines 105-113). -/
def animateByRole (e : AnimElem) : List StyleAction :=
  if e.matchesHeroHeading then animateHeroHeading e.id
  else if e.matchesLaptopFrame then animateLaptopFrame e.id e.screenChildren
  else if e.matchesCtaButton then animateCTAButton e.id
  else animateGeneric e.id

/-- The state of the Animations module (lines 17-22): the set of already
animated element ids, the number of registered intersection observers, and
the reduced-motion flag. -/
structure AnimState where
  animatedElements : List ℕ
  observerCount : ℕ
  prefersReducedMotion : Bool
deriving DecidableEq

/-- The function `Animations.animateElement` (lines 94-114): a no-op when
the element is already in `animatedElements` or reduced motion is
preferred; otherwise the element is added to the set, receives the
`animate-in` class, and is animated according to its role. -/
def animateElement (s : AnimState) (e : AnimElem) : AnimState × List StyleAction :=
  if s.animatedElements.contains e.id || s.prefersReducedMotion then (s, [])
  else
    ({ s with animatedElements := s.animatedElements ++ [e.id] },
     StyleAction.addCls e.id "animate-in" :: animateByRole e)

/-- The function `Animations.setupScrollAnimations` (lines 55-88): returns
immediately under reduced motion; otherwise registers one intersection
observer and observes every queried element not already in
`animatedElements`. -/
def setupScrollAnimations (s : AnimState) (queried : List AnimElem) :
    AnimState × List StyleAction :=
  if s.prefersReducedMotion then (s, [])
  else
    ({ s with observerCount := s.observerCount + 1 },
     (queried.filter fun e => !s.animatedElements.contains e.id).map
       fun e => StyleAction.observe e.id)

/-- The function `Animations.setupLoadAnimations` (lines 321-340): for each
immediate element, under reduced motion only `opacity = 1` is set;
otherwise the element is hidden and transitioned in with a 50ms stagger
(delays elided). -/
def setupLoadAnimations (s : AnimState) (immediateElems : List ℕ) :
    List StyleAction :=
  immediateElems.flatMap fun el =>
    if s.prefersReducedMotion then [StyleAction.setOpacity el "1"]
    else
      [StyleAction.setOpacity el "0",
       StyleAction.setTransform el "translateY(-10px)",
       StyleAction.setTransition el (transitionString (animationsConfig.animationDuration * 0.8)),
       StyleAction.setOpacity el "1",
       StyleAction.setTransform el "translateY(0)"]

/-- C3: with reduced motion off, triggering `animateElement` on an element
not yet animated animates it (a non-empty action list headed by the
`animate-in` class, followed by its role animation), records it in
`animatedElements`, and every subsequent call on the same element is a
no-op: it returns the state unchanged and performs no actions — so two
calls animate exactly once, and once recorded the element is never
re-animated. -/
theorem animateElement_fires_once (s : AnimState) (e : AnimElem)
    (hm : s.prefersReducedMotion = false)
    (hn : e.id ∉ s.animatedElements) :
    (animateElement s e).2 =
      StyleAction.addCls e.id "animate-in" :: animateByRole e ∧
    (animateElement s e).2 ≠ [] ∧
    e.id ∈ (animateElement s e).1.animatedElements ∧
    animateElement (animateElement s e).1 e = ((animateElement s e).1, []) ∧
    ∀ s' : AnimState, e.id ∈ s'.animatedElements →
      animateElement s' e = (s', []) := by
  have hstep : ∀ s' : AnimState, e.id ∈ s'.animatedElements →
      animateElement s' e = (s', []) := by
    intro s' h
    simp [animateElement, h]
  refine ⟨?_, ?_, ?_, ?_, hstep⟩
  · simp [animateElement, hm, hn]
  · simp [animateElement, hm, hn]
  · simp [animateElement, hm, hn]
  · exact hstep _ (by simp [animateElement, hm, hn])

/-- Witness for C3 at a concrete fresh element and state. -/
theorem animateElement_fires_once_witness :
    (animateElement ⟨[], 0, false⟩ ⟨7, false, false, true, []⟩).2 =
      StyleAction.addCls 7 "animate-in" ::
        animateByRole ⟨7, false, false, true, []⟩ ∧
    (animateElement ⟨[], 0, false⟩ ⟨7, false, false, true, []⟩).2 ≠ [] ∧
    7 ∈ (animateElement ⟨[], 0, false⟩
      ⟨7, false, false, true, []⟩).1.animatedElements ∧
    animateElement (animateElement ⟨[], 0, false⟩
        ⟨7, false, false, true, []⟩).1 ⟨7, false, false, true, []⟩ =
      ((animateElement ⟨[], 0, false⟩ ⟨7, false, false, true, []⟩).1, []) ∧
    ∀ s' : AnimState, 7 ∈ s'.animatedElements →
      animateElement s' ⟨7, false, false, true, []⟩ = (s', []) :=
  animateElement_fires_once ⟨[], 0, false⟩ ⟨7, false, false, true, []⟩
    rfl (by decide)

/-- C6: whenever the reduced-motion preference is active, every entry point
of the Animations module is animation-free: `setupScrollAnimations` makes
no observer and no action, `animateElement` is a no-op on every element,
and `setupLoadAnimations` only sets each handled element to full opacity
immediately — in particular no element ever receives an opacity/transform
transition from any of them. -/
theorem reducedMotion_no_animation (s : AnimState)
    (hs : s.prefersReducedMotion = true)
    (queried : List AnimElem) (immediateElems : List ℕ) :
    setupScrollAnimations s queried = (s, []) ∧
    (∀ e : AnimElem, animateElement s e = (s, [])) ∧
    setupLoadAnimations s immediateElems =
      immediateElems.map (fun el => StyleAction.setOpacity el "1") := by
  refine ⟨?_, ?_, ?_⟩
  · simp [setupScrollAnimations, hs]
  · intro e
    simp [animateElement, hs]
  · induction immediateElems with
    | nil => simp [setupLoadAnimations]
    | cons el rest ih =>
      simp_all [setupLoadAnimations, hs]

/-- Witness for C6 at a concrete reduced-motion state. -/
theorem reducedMotion_no_animation_witness :
    setupScrollAnimations ⟨[], 0, true⟩ [⟨3, true, false, false, []⟩] =
      (⟨[], 0, true⟩, []) ∧
    (∀ e : AnimElem, animateElement ⟨[], 0, true⟩ e = (⟨[], 0, true⟩, [])) ∧
    setupLoadAnimations ⟨[], 0, true⟩ [4, 5] =
      [StyleAction.setOpacity 4 "1", StyleAction.setOpacity 5 "1"] :=
  reducedMotion_no_animation ⟨[], 0, true⟩ rfl
    [⟨3, true, false, false, []⟩] [4, 5]

/-- The local easing function declared inside `Helpers.smoothScrollTo`
(src/unnamed/part_003, lines 135-140): half-duration-normalized
ease-in/ease-out quadratic, `t < 1: c/2·t²+b`, else `-c/2·(t·(t-2)-1)+b`. -/
def easeInOutQuad (t b c d : ℚ) : ℚ :=
  let t1 := t / (d / 2)
  if t1 < 1 then c / 2 * t1 * t1 + b
  else
    let t2 := t1 - 1;
    -c / 2 * (t2 * (t2 - 2) - 1) + b

/-- The scroll offset computed by `Navigation.scrollToElement`
(src/unnamed/part_000, lines 491-498): the header's `offsetHeight` when a
header element exists, otherwise 0, plus `config.smoothScrollOffset = 80`. -/
def scrollToElementOffset (headerHeight : Option ℚ) : ℚ :=
  (match headerHeight with
   | some h => h
   | none => 0) + 80

/-- Resolution of the property access `this.easeInOutQuad` inside the
`animation` frame callback of `Helpers.smoothScrollTo` (line 130).
`animation` is a plain function invoked by `requestAnimationFrame`, so its
receiver is the global object (or `undefined`); `easeInOutQuad` is declared
as a function local to `smoothScrollTo` and is a property of neither the
global object nor the `Helpers` object, so the lookup yields `undefined` on
every possible receiver. -/
def animationThisEase : Option (ℚ → ℚ → ℚ → ℚ → ℚ) := none

/-- One frame of the `animation` callback in `Helpers.smoothScrollTo`
(lines 127-133): it evaluates
`this.easeInOutQuad(timeElapsed, startPosition, distance, duration)` and,
were that to succeed, would scroll to the result; calling the `undefined`
lookup raises a TypeError, so `window.scrollTo` is never reached. -/
def smoothScrollToFrame (timeElapsed startPosition distance duration : ℚ) :
    Except String ℚ :=
  match animationThisEase with
  | none => Except.error "TypeError: this.easeInOutQuad is not a function"
  | some f => Except.ok (f timeElapsed startPosition distance duration)

/-- C4 (code bug): the offset is indeed header height plus 80, and the
easing function declared in the source is exactly the claimed quadratic
curve (checked at the start, midpoint and end of an 800ms tween from 0
over a distance of 420), but every animation frame of
`Helpers.smoothScrollTo` fails with a TypeError when resolving
`this.easeInOutQuad`, so the window scroll position is never animated at
all. -/
theorem smoothScrollTo_frame_throws :
    scrollToElementOffset (some 60) = 140 ∧
    scrollToElementOffset none = 80 ∧
    easeInOutQuad 0 0 420 800 = 0 ∧
    easeInOutQuad 400 0 420 800 = 210 ∧
    easeInOutQuad 800 0 420 800 = 420 ∧
    (∀ t s d dur : ℚ, smoothScrollToFrame t s d dur =
      Except.error "TypeError: this.easeInOutQuad is not a function") := by
  refine ⟨by norm_num [scrollToElementOffset],
    by norm_num [scrollToElementOffset], ?_, ?_, ?_,
    fun t s d dur => rfl⟩ <;> norm_num [easeInOutQuad]

/-- Association-list form of the document element lookups used by
`Navigation.handleNavClick` (src/unnamed/part_000, line 452):
`document.getElementById(targetId) ||
document.querySelector('[data-section=targetId]')`; elements are numeric
ids, `idMap` and `sectionMap` list the document's `id` and `data-section`
bindings. -/
def findTarget (idMap sectionMap : List (String × ℕ)) (targetId : String) :
    Option ℕ :=
  match (idMap.find? fun p => p.1 == targetId).map Prod.snd with
  | some el => some el
  | none => (sectionMap.find? fun p => p.1 == targetId).map Prod.snd

/-- An externally observable effect of a navigation click handler. -/
inductive NavAction where
  | warn (msg : String)
  | scrollToEl (el : ℕ)
  | updateActiveNavItem (sectionId : String)
  | dispatchEvt (name : String)
  | closeMenuAfterDelay (ms : ℕ)
deriving DecidableEq

/-- The function `Navigation.handleGetStarted` (lines 473-485): scrolls to
`#contact`, else `[data-section="contact"]`, else `.hero-section` (the
`heroSection` argument models that last query), when any of them exists,
and always dispatches `getStartedClicked`. -/
def handleGetStarted (idMap sectionMap : List (String × ℕ))
    (heroSection : Option ℕ) : List NavAction :=
  (match findTarget idMap sectionMap "contact" <|> heroSection with
   | some el => [NavAction.scrollToEl el]
   | none => []) ++ [NavAction.dispatchEvt "getStartedClicked"]

/-- The function `Navigation.handleNavClick` (lines 439-468) as the list of
effects it performs for a click on a link with the given `href`:
`targetId = href.substring(1)`; the id `get-started` is special-cased to
`handleGetStarted` before any lookup; otherwise a resolved target is
scrolled to, made active, and on an open mobile menu a delayed close is
scheduled, while an unresolved target only logs a warning. -/
def handleNavClick (idMap sectionMap : List (String × ℕ))
    (heroSection : Option ℕ) (isMobileViewport isMobileMenuOpen : Bool)
    (href : String) : List NavAction :=
  let targetId := href.drop 1
  if targetId = "get-started" then
    handleGetStarted idMap sectionMap heroSection
  else
    match findTarget idMap sectionMap targetId with
    | some el =>
      [NavAction.scrollToEl el, NavAction.updateActiveNavItem targetId] ++
        (if isMobileViewport && isMobileMenuOpen then
          [NavAction.closeMenuAfterDelay 300] else [])
    | none => [NavAction.warn ("Target element not found: " ++ targetId)]

/-- C5 counterexample: in a document whose only element binding is
`id="contact"`, the id `get-started` resolves to no element, yet clicking a
nav link with `href="#get-started"` logs no warning and scrolls to the
contact element (and dispatches `getStartedClicked`), because the handler
special-cases `get-started` before the lookup. -/
theorem handleNavClick_missing_target_counterexample :
    findTarget [("contact", 1)] [] "get-started" = none ∧
    handleNavClick [("contact", 1)] [] none false false "#get-started" =
      [NavAction.scrollToEl 1, NavAction.dispatchEvt "getStartedClicked"] := by
  constructor
  · rfl
  · rfl

/-- C5 (amended): for every navigation-link click whose target id is not
the special id `get-started` and resolves to no element (neither by id nor
by `data-section`), the handler's only effect is a logged warning naming
the missing id: no scroll, no active-state change, no menu action, no
dispatched event, and — being a total function — no exception. -/
theorem handleNavClick_missing_target (idMap sectionMap : List (String × ℕ))
    (heroSection : Option ℕ) (isMobileViewport isMobileMenuOpen : Bool)
    (href : String)
    (hid : href.drop 1 ≠ "get-started")
    (hmiss : findTarget idMap sectionMap (href.drop 1) = none) :
    handleNavClick idMap sectionMap heroSection isMobileViewport
        isMobileMenuOpen href =
      [NavAction.warn ("Target element not found: " ++ href.drop 1)] := by
  simp [handleNavClick, hid, hmiss]

/-- Witness for the amended C5 at a concrete document and link. -/
theorem handleNavClick_missing_target_witness :
    handleNavClick [("contact", 1)] [] none false false "#pricing" =
      [NavAction.warn ("Target element not found: " ++ "#pricing".drop 1)] :=
  handleNavClick_missing_target [("contact", 1)] [] none false false
    "#pricing" (by decide) rfl

/-- A JavaScript number that may be non-finite: either a finite rational or
one of NaN, +Infinity, -Infinity. -/
inductive JSNum where
  | fin (q : ℚ)
  | nan
  | posInf
  | negInf
deriving DecidableEq

/-- JavaScript division `a / b` of finite operands: division by zero yields
NaN for `0 / 0` and a signed infinity otherwise. -/
def jsDivFin (a b : ℚ) : JSNum :=
  if b = 0 then
    if a = 0 then JSNum.nan
    else if 0 < a then JSNum.posInf
    else JSNum.negInf
  else JSNum.fin (a / b)

/-- JavaScript `Math.max(0, x)`: NaN propagates, `-Infinity` clamps to 0. -/
def jsMax0 : JSNum → JSNum
  | JSNum.fin q => JSNum.fin (max 0 q)
  | JSNum.nan => JSNum.nan
  | JSNum.posInf => JSNum.posInf
  | JSNum.negInf => JSNum.fin 0

/-- JavaScript `Math.min(1, x)`: NaN propagates, `+Infinity` clamps to 1. -/
def jsMin1 : JSNum → JSNum
  | JSNum.fin q => JSNum.fin (min 1 q)
  | JSNum.nan => JSNum.nan
  | JSNum.posInf => JSNum.fin 1
  | JSNum.negInf => JSNum.negInf

/-- The progress value delivered by `ViewportUtils.onScroll`'s throttled
callback (src/unnamed/part_002, lines 180-194):
`Math.min(1, Math.max(0, y / (document.body.scrollHeight -
viewport.height)))`. -/
def onScrollProgress (y scrollHeight viewportHeight : ℚ) : JSNum :=
  jsMin1 (jsMax0 (jsDivFin y (scrollHeight - viewportHeight)))

/-- C7 counterexample: when the document height equals the viewport height
(both 800) and the scroll position is 0 — the only scroll position such a
page can have — the delivered progress is NaN, not a defined value in
[0,1]. -/
theorem onScrollProgress_nan_counterexample :
    onScrollProgress 0 800 800 = JSNum.nan ∧
    ∀ q : ℚ, onScrollProgress 0 800 800 ≠ JSNum.fin q := by
  have h : onScrollProgress 0 800 800 = JSNum.nan := by
    norm_num [onScrollProgress, jsDivFin, jsMax0, jsMin1]
  refine ⟨h, fun q hq => ?_⟩
  rw [h] at hq
  exact JSNum.noConfusion hq

/-- C7 (amended): whenever document height and viewport height differ, the
delivered progress is the finite value `y / (dh - vh)` clamped to [0,1];
when they are equal the division by zero propagates: scroll position 0
delivers NaN (the realistic case), while a positive scroll position
delivers 1 via `min(1, +Infinity)`. -/
theorem onScrollProgress_amended (y sh vh : ℚ) :
    (sh ≠ vh →
      onScrollProgress y sh vh = JSNum.fin (min 1 (max 0 (y / (sh - vh))))) ∧
    (sh = vh → y = 0 → onScrollProgress y sh vh = JSNum.nan) ∧
    (sh = vh → 0 < y → onScrollProgress y sh vh = JSNum.fin 1) := by
  refine ⟨?_, ?_, ?_⟩
  · intro h
    have h' : sh - vh ≠ 0 := sub_ne_zero_of_ne h
    simp [onScrollProgress, jsDivFin, h', jsMax0, jsMin1]
  · intro h hy
    simp [onScrollProgress, jsDivFin, h, hy, jsMax0, jsMin1]
  · intro h hy
    have hy' : y ≠ 0 := ne_of_gt hy
    simp [onScrollProgress, jsDivFin, h, hy, hy', jsMax0, jsMin1]

/-- Witness for the amended C7 on a concrete scrollable page. -/
theorem onScrollProgress_amended_witness :
    onScrollProgress 50 1000 800 =
      JSNum.fin (min 1 (max 0 (50 / (1000 - 800)))) :=
  (onScrollProgress_amended 50 1000 800).1 (by norm_num)

/-- Trailing-edge semantics of `Helpers.debounce` with the default
`immediate = false` (src/unnamed/part_003, lines 14-26), denotationally:
given the sorted times at which the debounced wrapper is called, the
wrapped function runs `wait` ms after each call that is not followed by
another call within `wait` ms (each new call clears the pending timeout and
re-arms it). -/
def debounceFires (wait : ℕ) : List ℕ → List ℕ
  | [] => []
  | [t] => [t + wait]
  | t :: t' :: rest =>
    if t' < t + wait then debounceFires wait (t' :: rest)
    else (t + wait) :: debounceFires wait (t' :: rest)

/-- The `window` listener lists relevant to
`ViewportUtils.onViewportChange` (src/unnamed/part_002, lines 154-172):
the handlers registered for `resize` and for `orientationchange`,
identified by numeric ids. -/
structure EventTarget where
  resizeHandlers : List ℕ
  orientationHandlers : List ℕ
deriving DecidableEq

/-- Registration performed by `ViewportUtils.onViewportChange` (lines
161-162): the same debounced handler `h` is added to both the `resize` and
`orientationchange` listener lists. -/
def onViewportChangeRegister (w : EventTarget) (h : ℕ) : EventTarget :=
  { resizeHandlers := w.resizeHandlers ++ [h]
    orientationHandlers := w.orientationHandlers ++ [h] }

/-- The cleanup function returned by `ViewportUtils.onViewportChange`
(lines 168-171): removes the handler `h` from both listener lists. -/
def onViewportChangeCleanup (w : EventTarget) (h : ℕ) : EventTarget :=
  { resizeHandlers := w.resizeHandlers.erase h
    orientationHandlers := w.orientationHandlers.erase h }

/-- The times at which the user callback of
`ViewportUtils.onViewportChange` actually runs: the registration performs
the initial call `debouncedCallback()` at time 0 (line 165), and each
resize/orientation event at the given later times calls the same debounced
wrapper; the callback body runs per the trailing-edge debounce
semantics. -/
def onViewportChangeCallbackTimes (debounceMs : ℕ) (eventTimes : List ℕ) :
    List ℕ :=
  debounceFires debounceMs (0 :: eventTimes)

/-- C8 counterexample: with the default `debounceMs = 250` and no further
events, registration makes the callback run exactly once at time 250 — it
is not invoked immediately (time 0) upon registration, because the initial
call goes through the debounced wrapper. -/
theorem onViewportChange_not_immediate_counterexample :
    onViewportChangeCallbackTimes 250 [] = [250] ∧
    0 ∉ onViewportChangeCallbackTimes 250 [] := by
  constructor
  · rfl
  · decide

/-- C8 (amended): `onViewportChange` registers one debounced handler on
both `resize` and `orientationchange`, makes one initial call of that
debounced wrapper at registration time — so with no intervening events the
callback runs exactly once, `debounceMs` after registration, not
immediately — and returns a cleanup function that removes exactly that
handler from both events, restoring the prior listener lists. -/
theorem onViewportChange_register_cleanup (w : EventTarget) (h : ℕ)
    (d : ℕ)
    (hr : h ∉ w.resizeHandlers) (ho : h ∉ w.orientationHandlers) :
    (onViewportChangeRegister w h).resizeHandlers =
      w.resizeHandlers ++ [h] ∧
    (onViewportChangeRegister w h).orientationHandlers =
      w.orientationHandlers ++ [h] ∧
    onViewportChangeCleanup (onViewportChangeRegister w h) h = w ∧
    onViewportChangeCallbackTimes d [] = [d] := by
  refine ⟨rfl, rfl, ?_, ?_⟩
  · cases w with
    | mk r o =>
      simp [onViewportChangeCleanup, onViewportChangeRegister,
        List.erase_append_right _ hr, List.erase_append_right _ ho]
  · simp [onViewportChangeCallbackTimes, debounceFires]

/-- Witness for the amended C8 at a concrete window and handler. -/
theorem onViewportChange_register_cleanup_witness :
    (onViewportChangeRegister ⟨[3], []⟩ 5).resizeHandlers = [3] ++ [5] ∧
    (onViewportChangeRegister ⟨[3], []⟩ 5).orientationHandlers = [] ++ [5] ∧
    onViewportChangeCleanup (onViewportChangeRegister ⟨[3], []⟩ 5) 5 =
      ⟨[3], []⟩ ∧
    onViewportChangeCallbackTimes 250 [] = [250] :=
  onViewportChange_register_cleanup ⟨[3], []⟩ 5 250 (by decide) (by decide)

/-- The six-tier max-width cascade of
`LaptopEnhancer.adjustSizeForViewport` (src/js/modules/laptop-enhancement.js,
lines 60-77): `>= 1400 → 800px`, `>= 1200 → 750px`, `>= 992 → 650px`,
`>= 768 → 580px`, `>= 576 → 520px`, otherwise `450px`. -/
def laptopMaxWidth (viewportWidth : ℚ) : String :=
  if viewportWidth ≥ 1400 then "800px"
  else if viewportWidth ≥ 1200 then "750px"
  else if viewportWidth ≥ 992 then "650px"
  else if viewportWidth ≥ 768 then "580px"
  else if viewportWidth ≥ 576 then "520px"
  else "450px"

/-- Numeric value of the longest digit prefix of a character list, the
behaviour of JavaScript `parseInt(s, 10)` on the non-negative `px` strings
it is applied to here. -/
def parseIntPrefix : List Char → ℕ → ℕ
  | [], acc => acc
  | c :: rest, acc =>
    if c.isDigit then parseIntPrefix rest (acc * 10 + (c.toNat - 48))
    else acc

/-- JavaScript `parseInt` followed by `+ 50 + 'px'` as applied to the tier
strings above (lines 85 and 90): the leading digits are parsed, 50 added,
and `px` re-appended. -/
def plus50px (maxWidth : String) : String :=
  toString (parseIntPrefix maxWidth.data 0 + 50) ++ "px"

/-- The inline `max-width` styles of the three laptop elements; a field is
`none` when the corresponding element is absent from the document, and
`some v` when it is present with inline max-width `v`. -/
structure LaptopElems where
  imageMaxWidth : Option String
  frameMaxWidth : Option String
  showcaseMaxWidth : Option String
deriving DecidableEq

/-- The function `LaptopEnhancer.adjustSizeForViewport` (lines 60-93):
computes the tier max-width for the viewport width and applies it to the
laptop image, and the tier max-width plus 50px to the laptop frame and
showcase, for each element that exists. -/
def adjustSizeForViewport (viewportWidth : ℚ) (e : LaptopElems) :
    LaptopElems :=
  let maxWidth := laptopMaxWidth viewportWidth
  { imageMaxWidth := e.imageMaxWidth.map fun _ => maxWidth
    frameMaxWidth := e.frameMaxWidth.map fun _ => plus50px maxWidth
    showcaseMaxWidth := e.showcaseMaxWidth.map fun _ => plus50px maxWidth }

/-- The value returned by `LaptopEnhancer.debounce(func, wait)` (lines
522-532): a fresh debounced closure whose captured `timeout` variable is
initially unset.  Constructing it calls nothing and schedules nothing. -/
structure LapDebounced where
  pendingTimeout : Option ℕ
deriving DecidableEq

/-- Evaluation of the expression `this.debounce(..., 250)` (line 56):
returns the fresh closure. -/
def lapDebounce (wait : ℕ) : LapDebounced :=
  { pendingTimeout := none }

/-- The body of the `resize` listener registered by
`LaptopEnhancer.enhanceLaptopSize` (lines 55-57): it evaluates
`this.debounce(() => this.adjustSizeForViewport(), 250)` — which builds a
debounced function — and discards the result without ever invoking it, so
the handler leaves the laptop elements unchanged and schedules no timeout
(second component: the timeout scheduled by the handler, if any). -/
def laptopResizeHandler (viewportWidth : ℚ) (e : LaptopElems) :
    LaptopElems × Option ℕ :=
  let d := lapDebounce 250
  (e, d.pendingTimeout)

/-- C9 (code bug): the tier mapping itself matches the claim — at viewport
width 1500 the laptop image max-width resolves to `800px`, and frame and
showcase to image width plus 50px — but the `resize` listener installed by
`enhanceLaptopSize` builds a debounced wrapper without calling it, so on a
viewport resize (here to width 500) nothing is recomputed: the styles stay
at their old values instead of the 450px tier that
`adjustSizeForViewport` would apply. -/
theorem laptopResize_does_not_recompute :
    laptopMaxWidth 1500 = "800px" ∧
    adjustSizeForViewport 1500 ⟨some "", some "", some ""⟩ =
      ⟨some "800px", some "850px", some "850px"⟩ ∧
    laptopResizeHandler 500 ⟨some "800px", some "850px", some "850px"⟩ =
      (⟨some "800px", some "850px", some "850px"⟩, none) ∧
    adjustSizeForViewport 500 ⟨some "800px", some "850px", some "850px"⟩ =
      ⟨some "450px", some "500px", some "500px"⟩ := by
  have h1500 : laptopMaxWidth 1500 = "800px" := by norm_num [laptopMaxWidth]
  have h500 : laptopMaxWidth 500 = "450px" := by norm_num [laptopMaxWidth]
  refine ⟨h1500, ?_, rfl, ?_⟩
  · simp only [adjustSizeForViewport, h1500, Option.map_some]
    exact rfl
  · simp only [adjustSizeForViewport, h500, Option.map_some]
    exact rfl

/-- The inline body styles and dataset entry touched by
`ViewportUtils.lockScroll` / `unlockScroll` (src/unnamed/part_002, lines
199-219). -/
structure BodyState where
  stylePosition : String
  styleTop : String
  styleWidth : String
  datasetScrollY : Option String
deriving DecidableEq

/-- A window scroll command issued by the ViewportUtils scroll lock. -/
inductive ScrollCommand where
  | scrollTo (x y : ℤ)
deriving DecidableEq

/-- JavaScript `parseInt(s, 10)` restricted to the decimal strings stored
by `lockScroll`. -/
def jsParseInt10 (s : String) : ℤ :=
  s.toInt?.getD 0

/-- The function `ViewportUtils.lockScroll` (lines 199-205): freezes the
body and records the current scroll offset in `data-scroll-y`. -/
def lockScroll (scrollY : ℤ) (b : BodyState) : BodyState :=
  { stylePosition := "fixed"
    styleTop := "-" ++ toString scrollY ++ "px"
    styleWidth := "100%"
    datasetScrollY := some (toString scrollY) }

/-- The function `ViewportUtils.unlockScroll` (lines 210-219): clears the
three inline styles unconditionally; only when `dataset.scrollY` is truthy
(present and non-empty) does it issue `scrollTo(0, parseInt(scrollY, 10))`
and delete the dataset entry. -/
def unlockScroll (b : BodyState) : BodyState × List ScrollCommand :=
  let scrollY := b.datasetScrollY
  let b1 : BodyState :=
    { b with stylePosition := "", styleTop := "", styleWidth := "" }
  match scrollY with
  | some s =>
    if s = "" then (b1, [])
    else ({ b1 with datasetScrollY := none },
      [ScrollCommand.scrollTo 0 (jsParseInt10 s)])
  | none => (b1, [])

/-- Window scroll position after executing a list of scroll commands. -/
def runScrollCommands (scrollY : ℤ) (cmds : List ScrollCommand) : ℤ :=
  cmds.foldl (fun _ c => match c with | ScrollCommand.scrollTo _ y => y)
    scrollY

/-- C10: calling `unlockScroll` when no `lockScroll` preceded it (the
body's `data-scroll-y` attribute is unset) is safe: it clears the body's
position/top/width inline styles, issues no `scrollTo` command, and leaves
the window scroll position unchanged. -/
theorem unlockScroll_without_lock (b : BodyState)
    (h : b.datasetScrollY = none) :
    unlockScroll b =
      ({ b with stylePosition := "", styleTop := "", styleWidth := "" },
        []) ∧
    ∀ y : ℤ, runScrollCommands y (unlockScroll b).2 = y := by
  have hu : unlockScroll b =
      ({ b with stylePosition := "", styleTop := "", styleWidth := "" },
        []) := by
    simp [unlockScroll, h]
  exact ⟨hu, fun y => by rw [hu]; rfl⟩

/-- Witness for C10 at a concrete never-locked body. -/
theorem unlockScroll_without_lock_witness :
    unlockScroll ⟨"static", "10px", "50%", none⟩ =
      (⟨"", "", "", none⟩, []) ∧
    ∀ y : ℤ,
      runScrollCommands y (unlockScroll ⟨"static", "10px", "50%", none⟩).2 =
        y :=
  unlockScroll_without_lock ⟨"static", "10px", "50%", none⟩ rfl
